import Mathlib

/-!
# CamelotCore window-event bridge (`CmWindowEventUtilities.cpp`)

A shallow embedding of `WindowEventUtilities` (the window registry, the Win32
window procedure `_WndProc`, the X11 translator `GLXProc` and the Carbon handler
`_CarbonWindowHandler`) together with the properties established about them.

Pointers are natural numbers (`0` is the null pointer).  Calls that leave the
translation unit (window mutators, listener callbacks, signals, the input
subsystem, the application) are recorded, in program order, in a call log.
-/

namespace CamelotFramework

/-! ## Window registry -/

/-- A `RenderWindow*`, compared by address. -/
abbrev WindowHandle := Nat

/-- The container behind `_msWindows`: a sequence of window pointers. -/
abbrev Windows := List WindowHandle

namespace WindowEventUtilities

/-- The body of `_addRenderWindow`: `_msWindows.push_back(window)`. -/
def _addRenderWindow (ws : Windows) (window : WindowHandle) : Windows :=
  ws ++ [window]

/-- The search `std::find(first, last, value)` on a sequence: the position of the first element
equal to `value`, or the length of the sequence (the `end()` position) when there is none. -/
def find : Windows → WindowHandle → Nat
  | [], _ => 0
  | x :: xs, value => if x = value then 0 else find xs value + 1

/-- The body of `_removeRenderWindow`: look the pointer up with `std::find` and erase that
position unless the search ended at `end()`. -/
def _removeRenderWindow (ws : Windows) (window : WindowHandle) : Windows :=
  let i := find ws window
  if i ≠ ws.length then ws.eraseIdx i else ws

/-- One call on the registry. -/
inductive RegistryCall where
  | add (window : WindowHandle)
  | remove (window : WindowHandle)
  deriving DecidableEq, Repr

/-- The registry after one call. -/
def applyCall (ws : Windows) : RegistryCall → Windows
  | .add h => _addRenderWindow ws h
  | .remove h => _removeRenderWindow ws h

/-- The registry after a sequence of calls, oldest first. -/
def runCalls (ws : Windows) (calls : List RegistryCall) : Windows :=
  calls.foldl applyCall ws

/-- Every `add` of the sequence is made for a pointer that is not registered at that moment. -/
def addsAreFresh : Windows → List RegistryCall → Bool
  | _, [] => true
  | ws, .add h :: rest => decide (h ∉ ws) && addsAreFresh (_addRenderWindow ws h) rest
  | ws, .remove h :: rest => addsAreFresh (_removeRenderWindow ws h) rest

end WindowEventUtilities

/-! ## Render windows and the call log -/

/-- The five values `RenderWindow::getMetrics` reports. -/
structure Metrics where
  width : Nat
  height : Nat
  depth : Nat
  left : Int
  top : Int
  deriving DecidableEq, Repr

/-- Modelled from the spec: the `RenderWindow` object (`CmRenderWindow.h` is not among the
sources).  It owns the normalized window state `active`, `visible`, `hasFocus` and `bounds`, the
deactivate-on-focus-loss configuration and the closed flag; `handle` is its address. -/
structure RenderWindow where
  handle : WindowHandle
  active : Bool
  visible : Bool
  hasFocus : Bool
  bounds : Metrics
  deactivatedOnFocusChange : Bool
  closed : Bool
  deriving DecidableEq, Repr

/-- The listener methods of the Carbon path. -/
inductive ListenerMethod where
  | windowFocusChange
  | windowMoved
  | windowResized
  | windowClosing
  | windowClosed
  deriving DecidableEq, Repr

/-- The names passed to `getCustomAttribute`. -/
inductive Attribute where
  | ATOM
  | WINDOW
  | XDISPLAY
  deriving DecidableEq, Repr

/-- A call that leaves `CmWindowEventUtilities.cpp`, as recorded in the call log. -/
inductive Call where
  | setActive (state : Bool)
  | setVisible (state : Bool)
  | _setHasFocus (state : Bool)
  | windowMovedOrResized
  | getMetrics
  | isClosed
  | getCustomAttribute (name : Attribute)
  | inputWindowChanged (win : WindowHandle)
  | stopMainLoop
  | onMouseMoved (x y : Int)
  | onCharInput (chr : Nat)
  | _win32HideCursor
  | _win32ShowCursor
  | setWindowLongPtr (value : WindowHandle)
  | setMinTrackSize (x y : Int)
  | listener (listener : Nat) (method : ListenerMethod) (win : WindowHandle)
  deriving DecidableEq, Repr

namespace RenderWindow

/-- Modelled from the spec: `RenderWindow::setActive` (not among the sources) stores the flag. -/
def setActive (w : RenderWindow) (state : Bool) : RenderWindow := { w with active := state }

/-- Modelled from the spec: `RenderWindow::setVisible` (not among the sources) stores the flag. -/
def setVisible (w : RenderWindow) (state : Bool) : RenderWindow := { w with visible := state }

/-- Modelled from the spec: `RenderWindow::_setHasFocus` (not among the sources) stores the
flag. -/
def _setHasFocus (w : RenderWindow) (state : Bool) : RenderWindow := { w with hasFocus := state }

/-- Modelled from the spec: `RenderWindow::windowMovedOrResized` (not among the sources)
recomputes the cached metrics; `native` is the geometry the operating system reports. -/
def windowMovedOrResized (w : RenderWindow) (native : Metrics) : RenderWindow :=
  { w with bounds := native }

/-- Modelled from the spec: `RenderWindow::isDeactivatedOnFocusChange` (not among the sources)
reads the configuration flag. -/
def isDeactivatedOnFocusChange (w : RenderWindow) : Bool := w.deactivatedOnFocusChange

/-- Modelled from the spec: `RenderWindow::isClosed` (not among the sources). -/
def isClosed (w : RenderWindow) : Bool := w.closed

end RenderWindow

/-- A translator in progress: the window object and the calls made so far, oldest first. -/
structure Exec where
  win : RenderWindow
  log : List Call
  deriving DecidableEq, Repr

namespace Exec

/-- Entry of a translator: nothing called yet. -/
def start (w : RenderWindow) : Exec := { win := w, log := [] }

/-- Record a call that does not change the window. -/
def call (e : Exec) (c : Call) : Exec := { e with log := e.log ++ [c] }

/-- Statement `win->setActive(state)`. -/
def setActive (e : Exec) (state : Bool) : Exec :=
  { win := e.win.setActive state, log := e.log ++ [Call.setActive state] }

/-- Statement `win->setVisible(state)`. -/
def setVisible (e : Exec) (state : Bool) : Exec :=
  { win := e.win.setVisible state, log := e.log ++ [Call.setVisible state] }

/-- Statement `win->_setHasFocus(state)`. -/
def _setHasFocus (e : Exec) (state : Bool) : Exec :=
  { win := e.win._setHasFocus state, log := e.log ++ [Call._setHasFocus state] }

/-- Statement `win->windowMovedOrResized()`. -/
def windowMovedOrResized (e : Exec) (native : Metrics) : Exec :=
  { win := e.win.windowMovedOrResized native, log := e.log ++ [Call.windowMovedOrResized] }

end Exec

/-- How often a call satisfying `p` occurs in a log. -/
def countCalls (p : Call → Bool) (log : List Call) : Nat := log.countP p

/-- Firings of the `onCharInput` signal. -/
def Call.isCharInput : Call → Bool
  | .onCharInput _ => true
  | _ => false

/-- Firings of the `onMouseMoved` signal. -/
def Call.isMouseMoved : Call → Bool
  | .onMouseMoved _ _ => true
  | _ => false

/-- Notifications to the input subsystem (`gInput().inputWindowChanged`). -/
def Call.isInputWindowChanged : Call → Bool
  | .inputWindowChanged _ => true
  | _ => false

/-- Requests to stop the main loop (`gApplication().stopMainLoop`). -/
def Call.isStopMainLoop : Call → Bool
  | .stopMainLoop => true
  | _ => false

/-- Calls of a listener method. -/
def Call.isListener : Call → Bool
  | .listener _ _ _ => true
  | _ => false

/-- Calls of `_setHasFocus`, with either argument. -/
def Call.isSetHasFocus : Call → Bool
  | ._setHasFocus _ => true
  | _ => false

/-- Calls of a window mutator (`setActive`, `setVisible`, `_setHasFocus`,
`windowMovedOrResized`). -/
def Call.isMutator : Call → Bool
  | .setActive _ => true
  | .setVisible _ => true
  | ._setHasFocus _ => true
  | .windowMovedOrResized => true
  | _ => false

/-! ## Win32: `WindowEventUtilities::_WndProc` -/

namespace Win32

/-! Message numbers, virtual-key codes and mapping types of the Windows SDK (`winuser.h`). -/

def WM_CREATE : Nat := 0x0001
def WM_MOVE : Nat := 0x0003
def WM_SIZE : Nat := 0x0005
def WM_ACTIVATE : Nat := 0x0006
def WM_CLOSE : Nat := 0x0010
def WM_SETCURSOR : Nat := 0x0020
def WM_GETMINMAXINFO : Nat := 0x0024
def WM_DISPLAYCHANGE : Nat := 0x007E
def WM_CHAR : Nat := 0x0102
def WM_DEADCHAR : Nat := 0x0103
def WM_SYSKEYDOWN : Nat := 0x0104
def WM_SYSKEYUP : Nat := 0x0105
def WM_SYSCHAR : Nat := 0x0106
def WM_MOUSEMOVE : Nat := 0x0200
def WM_ENTERSIZEMOVE : Nat := 0x0231
def WM_EXITSIZEMOVE : Nat := 0x0232
def WA_INACTIVE : Nat := 0
def VK_BACK : Nat := 0x08
def VK_TAB : Nat := 0x09
def VK_SHIFT : Nat := 0x10
def VK_CONTROL : Nat := 0x11
def VK_MENU : Nat := 0x12
def VK_ESCAPE : Nat := 0x1B
def VK_SPACE : Nat := 0x20
def VK_F10 : Nat := 0x79
def MAPVK_VK_TO_CHAR : Nat := 2
def MAPVK_VSC_TO_VK_EX : Nat := 3

/-- The macro `LOWORD(v)` on an unsigned value. -/
def LOWORD (v : Nat) : Nat := v % 65536

/-- The cast `(int)(short)` applied to a 16-bit word. -/
def toShort (v : Int) : Int := if v < 32768 then v else v - 65536

/-- The macro `GET_X_LPARAM(lp)`: the low word of `lp`, read as a signed short. -/
def GET_X_LPARAM (lp : Int) : Int := toShort (lp % 65536)

/-- The macro `GET_Y_LPARAM(lp)`: the high word of `lp`, read as a signed short. -/
def GET_Y_LPARAM (lp : Int) : Int := toShort ((lp >>> 16) % 65536)

/-- What `ToUnicodeEx` hands back: its return value and the contents of `buff`. -/
structure ToUnicodeResult where
  numChars : Int
  buff : List Nat
  deriving DecidableEq, Repr

/-- The answers of the operating system and of the engine globals that `_WndProc` queries. -/
structure Win32Env where
  /-- The window object `((LPCREATESTRUCT)lParam)->lpCreateParams` points to (`none`: null). -/
  lpCreateParams : Option RenderWindow
  /-- The geometry the window reads in `windowMovedOrResized`. -/
  nativeMetrics : Metrics
  /-- The answer of `Cursor::isHidden()`. -/
  cursorHidden : Bool
  /-- The conversion `ClientToScreen(hWnd, &pt)`. -/
  clientToScreen : Int → Int → Int × Int
  /-- Number of slots connected to `onMouseMoved`. -/
  mouseMovedSlots : Nat
  /-- Number of slots connected to `onCharInput`. -/
  charInputSlots : Nat
  /-- The result of `GetKeyboardState(keyState)`: the 256 key states, or `none` when the call
  returns 0. -/
  getKeyboardState : Option (List Nat)
  /-- The result of `MapVirtualKeyEx(code, mapType, GetKeyboardLayout(0))`. -/
  mapVirtualKeyEx : Nat → Nat → Nat
  /-- The result of `ToUnicodeEx(vk, scanCode, keyState, buff, 3, 0, GetKeyboardLayout(0))`. -/
  toUnicodeEx : Nat → Nat → List Nat → ToUnicodeResult

/-- How `_WndProc` returns: a value of its own, or the value of
`DefWindowProc(hWnd, uMsg, wParam, lParam)`. -/
inductive LResult where
  | value (v : Int)
  | defWindowProc
  deriving DecidableEq, Repr

/-- One run of `_WndProc`: the window object behind `GWLP_USERDATA` afterwards (`none`: the
slot holds null), the calls made, and how it returned. -/
structure WndProcOutcome where
  userData : Option RenderWindow
  log : List Call
  result : LResult
  deriving DecidableEq, Repr

/-- The five `wParam` values of the `WM_CHAR` switch that only `break`. -/
def isSuppressedKey (wParam : Nat) : Bool :=
  wParam = VK_BACK || wParam = 0x0A || wParam = 0x0D || wParam = VK_ESCAPE || wParam = VK_TAB

/-- The scan code `UINT8 scanCode = (lParam >> 16) & 0xFF`. -/
def scanCodeOf (lParam : Int) : Nat := ((lParam >>> 16) % 256).toNat

/-- The virtual key `MapVirtualKeyEx(scanCode, MAPVK_VSC_TO_VK_EX, layout)`, an
`unsigned int`. -/
def resolveVk (env : Win32Env) (scanCode : Nat) : Nat :=
  env.mapVirtualKeyEx scanCode MAPVK_VSC_TO_VK_EX % 2 ^ 32

/-- The test `(MapVirtualKeyEx(vk, MAPVK_VK_TO_CHAR, layout) & (1 << 31)) != 0`. -/
def isDeadKey (env : Win32Env) (vk : Nat) : Bool :=
  (env.mapVirtualKeyEx vk MAPVK_VK_TO_CHAR % 2 ^ 32) &&& (1 <<< 31) ≠ 0

/-- The assignment `finalChar = buff[0]`: a 16-bit `wchar_t` (zero-initialised) widened to
`UINT32`. -/
def finalCharOf (r : ToUnicodeResult) : Nat := (r.buff.getD 0 0 % 2 ^ 16) % 2 ^ 32

/-- The `default:` branch of the `WM_DEADCHAR` / `WM_CHAR` case (displayable character). -/
def displayableChar (env : Win32Env) (e : Exec) (lParam : Int) : Exec × LResult :=
  let scanCode := scanCodeOf lParam
  match env.getKeyboardState with
  | none => (e, .value 0)
  | some keyState =>
    let vk := resolveVk env scanCode
    if vk = 0 then (e, .value 0)
    else if isDeadKey env vk then (e, .value 0)
    else
      let r := env.toUnicodeEx vk scanCode keyState
      if r.numChars = 1 then
        let finalChar := finalCharOf r
        let e := if env.charInputSlots ≠ 0 then e.call (.onCharInput finalChar) else e
        (e, .value 0)
      else (e, .value 0)

/-- The `switch (uMsg)` of `_WndProc` for a non-null window; a `break` leaves through
`return DefWindowProc(...)`. -/
def wndProcSwitch (env : Win32Env) (e : Exec) (uMsg wParam : Nat) (lParam : Int) :
    Exec × LResult :=
  if uMsg = WM_ACTIVATE then
    let active := decide (LOWORD wParam ≠ WA_INACTIVE)
    if active then
      let e := e.setActive true
      let e := if !e.win.hasFocus then e._setHasFocus true else e
      let e := e.call (.inputWindowChanged e.win.handle)
      (e, .defWindowProc)
    else
      let e := if e.win.isDeactivatedOnFocusChange then e.setActive false else e
      let e := if e.win.hasFocus then e._setHasFocus false else e
      (e, .defWindowProc)
  else if uMsg = WM_SYSKEYDOWN then
    if wParam = VK_CONTROL ∨ wParam = VK_SHIFT ∨ wParam = VK_MENU then (e, .value 0)
    else (e, .defWindowProc)
  else if uMsg = WM_SYSKEYUP then
    if wParam = VK_CONTROL ∨ wParam = VK_SHIFT ∨ wParam = VK_MENU ∨ wParam = VK_F10 then
      (e, .value 0)
    else (e, .defWindowProc)
  else if uMsg = WM_SYSCHAR then
    if wParam ≠ VK_SPACE then (e, .value 0) else (e, .defWindowProc)
  else if uMsg = WM_ENTERSIZEMOVE then (e, .defWindowProc)
  else if uMsg = WM_EXITSIZEMOVE then (e, .defWindowProc)
  else if uMsg = WM_MOVE then (e.windowMovedOrResized env.nativeMetrics, .defWindowProc)
  else if uMsg = WM_DISPLAYCHANGE then (e.windowMovedOrResized env.nativeMetrics, .defWindowProc)
  else if uMsg = WM_SIZE then (e.windowMovedOrResized env.nativeMetrics, .defWindowProc)
  else if uMsg = WM_SETCURSOR then
    if env.cursorHidden then (e.call ._win32HideCursor, .value 1)
    else (e.call ._win32ShowCursor, .value 1)
  else if uMsg = WM_GETMINMAXINFO then (e.call (.setMinTrackSize 100 100), .defWindowProc)
  else if uMsg = WM_CLOSE then (e.call .stopMainLoop, .value 0)
  else if uMsg = WM_MOUSEMOVE then
    let mousePos := env.clientToScreen (GET_X_LPARAM lParam) (GET_Y_LPARAM lParam)
    let e := if env.mouseMovedSlots ≠ 0 then e.call (.onMouseMoved mousePos.1 mousePos.2) else e
    (e, .value 1)
  else if uMsg = WM_DEADCHAR ∨ uMsg = WM_CHAR then
    if isSuppressedKey wParam then (e, .defWindowProc)
    else displayableChar env e lParam
  else (e, .defWindowProc)

/-- The window procedure `WindowEventUtilities::_WndProc`.  `userData` is the window object the
pointer stored under `GWLP_USERDATA` refers to (`none` when `GetWindowLongPtr` returns null). -/
def _WndProc (env : Win32Env) (userData : Option RenderWindow) (uMsg wParam : Nat)
    (lParam : Int) : WndProcOutcome :=
  if uMsg = WM_CREATE then
    { userData := env.lpCreateParams
      log := [Call.setWindowLongPtr ((env.lpCreateParams.map RenderWindow.handle).getD 0)]
      result := .value 0 }
  else
    match userData with
    | none => { userData := none, log := [], result := .defWindowProc }
    | some win =>
      let r := wndProcSwitch env (Exec.start win) uMsg wParam lParam
      { userData := some r.1.win, log := r.1.log, result := r.2 }

end Win32

/-! ## X11: `GLXProc` -/

namespace X11

/-! Event types and visibility states of Xlib (`X.h`). -/

def FocusIn : Int := 9
def FocusOut : Int := 10
def VisibilityNotify : Int := 15
def DestroyNotify : Int := 17
def UnmapNotify : Int := 18
def MapNotify : Int := 19
def ConfigureNotify : Int := 22
def ClientMessage : Int := 33
def VisibilityUnobscured : Int := 0
def VisibilityPartiallyObscured : Int := 1
def VisibilityFullyObscured : Int := 2

/-- The members of the `XEvent` union that `GLXProc` reads. -/
structure XEvent where
  type : Int
  xclient_format : Int
  xclient_data_l0 : Int
  xvisibility_state : Int
  deriving DecidableEq, Repr

/-- The function `GLXProc(win, event)`.  `native` is the geometry the window reads in
`windowMovedOrResized`, `atom` the value `getCustomAttribute("ATOM", &atom)` stores. -/
def GLXProc (native : Metrics) (atom : Int) (win : RenderWindow) (event : XEvent) : Exec :=
  let e := Exec.start win
  if event.type = ClientMessage then
    let e := e.call (.getCustomAttribute .ATOM)
    if event.xclient_format = 32 ∧ event.xclient_data_l0 = atom then e else e
  else if event.type = DestroyNotify then
    let e := e.call .isClosed
    if !e.win.isClosed then e else e
  else if event.type = ConfigureNotify then
    let e := e.call .getMetrics
    let e := e.windowMovedOrResized native
    e.call .getMetrics
  else if event.type = FocusIn ∨ event.type = FocusOut then e
  else if event.type = MapNotify then e.setActive true
  else if event.type = UnmapNotify then (e.setActive false).setVisible false
  else if event.type = VisibilityNotify then
    if event.xvisibility_state = VisibilityUnobscured then
      (e.setActive true).setVisible true
    else if event.xvisibility_state = VisibilityPartiallyObscured then
      (e.setActive true).setVisible true
    else if event.xvisibility_state = VisibilityFullyObscured then
      (e.setActive false).setVisible false
    else e
  else e

/-- An event of the given type with the other members zero. -/
def eventOfType (t : Int) : XEvent :=
  { type := t, xclient_format := 0, xclient_data_l0 := 0, xvisibility_state := 0 }

end X11

/-! ## Carbon: `WindowEventUtilities::_CarbonWindowHandler` -/

namespace Carbon

/-- The value of `GetEventKind(event)`: the ten kinds the handler names, or any other kind. -/
inductive EventKind where
  | kEventWindowActivated
  | kEventWindowDeactivated
  | kEventWindowShown
  | kEventWindowExpanded
  | kEventWindowHidden
  | kEventWindowCollapsed
  | kEventWindowDragCompleted
  | kEventWindowBoundsChanged
  | kEventWindowClose
  | kEventWindowClosed
  | other (kind : Nat)
  deriving DecidableEq, Repr

/-- The status `noErr`. -/
def noErr : Int := 0

/-- The status `eventNotHandledErr`. -/
def eventNotHandledErr : Int := -9874

/-- A `WindowEventListener*`: its address and the answer its `windowClosing` gives. -/
structure WindowEventListener where
  id : Nat
  windowClosing : RenderWindow → Bool

/-- The multimap `_msListeners` in iteration order: entries are ordered by key. -/
abbrev WindowEventListeners := List (WindowHandle × WindowEventListener)

/-- Position `_msListeners.lower_bound(key)`: the first entry whose key is not less than
`key`. -/
def lower_bound (m : WindowEventListeners) (key : WindowHandle) : Nat :=
  (m.takeWhile (fun entry => decide (entry.1 < key))).length

/-- Position `_msListeners.upper_bound(key)`: the first entry whose key is greater than
`key`. -/
def upper_bound (m : WindowEventListeners) (key : WindowHandle) : Nat :=
  (m.takeWhile (fun entry => decide (entry.1 ≤ key))).length

/-- The ordering of the multimap: along the iteration order the keys never decrease. -/
def KeySorted (m : WindowEventListeners) : Prop :=
  m.Pairwise (fun a b => a.1 ≤ b.1)

/-- The listeners (`->second`) at the positions `start`, `start + 1`, ... up to but excluding
`end`, which is what `for( ; start != end; ++start)` visits. -/
def iterate (m : WindowEventListeners) (start stop : Nat) : List WindowEventListener :=
  ((m.drop start).take (stop - start)).map Prod.snd

/-- Modelled from the spec: listener registration (`addWindowEventListener` is not among the
sources) inserts the pair into the multi-valued ordered association, behind the pairs already
registered for the same handle. -/
def registerListener (m : WindowEventListeners) (window : WindowHandle)
    (listener : WindowEventListener) : WindowEventListeners :=
  m.take (upper_bound m window) ++ (window, listener) :: m.drop (upper_bound m window)

/-- The multimap after a sequence of registrations, oldest first. -/
def registerAll (regs : List (WindowHandle × WindowEventListener)) : WindowEventListeners :=
  regs.foldl (fun m r => registerListener m r.1 r.2) []

/-- The body `(start->second)->method(curWindow)` of a notification loop. -/
def notifyStep (method : ListenerMethod) (e : Exec) (l : WindowEventListener) : Exec :=
  e.call (.listener l.id method e.win.handle)

/-- A loop `for( ; start != end; ++start) (start->second)->method(curWindow);` over the
listeners `ls` of the range. -/
def notifyAll (method : ListenerMethod) (e : Exec) (ls : List WindowEventListener) : Exec :=
  ls.foldl (notifyStep method) e

/-- The body of the loop of `case kEventWindowClose`; the second component is the local
`close`: `if (!(start->second)->windowClosing(curWindow)) close = false;`. -/
def askStep (s : Exec × Bool) (l : WindowEventListener) : Exec × Bool :=
  let asked := s.1.call (.listener l.id .windowClosing s.1.win.handle)
  if !(l.windowClosing s.1.win) then (asked, false) else (asked, s.2)

/-- The loop of `case kEventWindowClose`, entered with `close = true`. -/
def askClosing (e : Exec) (ls : List WindowEventListener) : Exec × Bool :=
  ls.foldl askStep (e, true)

/-- One run of the handler: the window object afterwards (`none`: `wnd` was null), the calls
made, and the returned status. -/
structure CarbonOutcome where
  win : Option RenderWindow
  log : List Call
  status : Int
  deriving DecidableEq, Repr

/-- Leave the handler with `status`. -/
def finish (e : Exec) (status : Int) : CarbonOutcome :=
  { win := some e.win, log := e.log, status := status }

/-- The handler `WindowEventUtilities::_CarbonWindowHandler`.  `wnd` is the window object the
user-data pointer refers to (`none`: null), `native` the geometry the window reads in
`windowMovedOrResized`. -/
def _CarbonWindowHandler (native : Metrics) (msListeners : WindowEventListeners)
    (eventKind : EventKind) (wnd : Option RenderWindow) : CarbonOutcome :=
  match wnd with
  | none => { win := none, log := [], status := eventNotHandledErr }
  | some curWindow =>
    let range := iterate msListeners (lower_bound msListeners curWindow.handle)
      (upper_bound msListeners curWindow.handle)
    let e := Exec.start curWindow
    match eventKind with
    | .kEventWindowActivated =>
      finish (notifyAll .windowFocusChange (e.setActive true) range) noErr
    | .kEventWindowDeactivated =>
      let e := if e.win.isDeactivatedOnFocusChange then e.setActive false else e
      finish (notifyAll .windowFocusChange e range) noErr
    | .kEventWindowShown | .kEventWindowExpanded =>
      finish (notifyAll .windowFocusChange ((e.setActive true).setVisible true) range) noErr
    | .kEventWindowHidden | .kEventWindowCollapsed =>
      finish (notifyAll .windowFocusChange ((e.setActive false).setVisible false) range) noErr
    | .kEventWindowDragCompleted =>
      finish (notifyAll .windowMoved (e.windowMovedOrResized native) range) noErr
    | .kEventWindowBoundsChanged =>
      finish (notifyAll .windowResized (e.windowMovedOrResized native) range) noErr
    | .kEventWindowClose =>
      let r := askClosing e range
      if r.2 then finish r.1 eventNotHandledErr else finish r.1 noErr
    | .kEventWindowClosed =>
      finish (notifyAll .windowClosed e range) noErr
    | .other _ => finish e eventNotHandledErr

/-- The listener method the specification pairs with an event kind (none for a kind the
handler does not name). -/
def methodFor : EventKind → Option ListenerMethod
  | .kEventWindowActivated | .kEventWindowDeactivated | .kEventWindowShown
  | .kEventWindowExpanded | .kEventWindowHidden | .kEventWindowCollapsed =>
    some .windowFocusChange
  | .kEventWindowDragCompleted => some .windowMoved
  | .kEventWindowBoundsChanged => some .windowResized
  | .kEventWindowClose => some .windowClosing
  | .kEventWindowClosed => some .windowClosed
  | .other _ => none

/-- The listeners registered for `window`, in registration order. -/
def registeredFor (regs : List (WindowHandle × WindowEventListener)) (window : WindowHandle) :
    List WindowEventListener :=
  (regs.filter (fun r => decide (r.1 = window))).map Prod.snd

end Carbon

/-! ## Sample inputs -/

/-- A window that is inactive, hidden and without input focus. -/
def sampleWindow : RenderWindow :=
  { handle := 1, active := false, visible := false, hasFocus := false,
    bounds := { width := 800, height := 600, depth := 32, left := 0, top := 0 },
    deactivatedOnFocusChange := true, closed := false }

/-- A window that is active, visible and holds the input focus. -/
def focusedWindow : RenderWindow :=
  { sampleWindow with active := true, visible := true, hasFocus := true }

/-- A keyboard on which scan code `0x1E` is the key `A` (virtual key `0x41`, character `a`),
scan code `0x1A` is a dead key (virtual key `0xDD`), and every other scan code is unmapped; one
slot is connected to each signal. -/
def Win32.sampleEnv : Win32.Win32Env :=
  { lpCreateParams := some sampleWindow
    nativeMetrics := { width := 1024, height := 768, depth := 32, left := 10, top := 20 }
    cursorHidden := false
    clientToScreen := fun x y => (x + 10, y + 20)
    mouseMovedSlots := 1
    charInputSlots := 1
    getKeyboardState := some (List.replicate 256 0)
    mapVirtualKeyEx := fun code mapType =>
      if mapType = Win32.MAPVK_VSC_TO_VK_EX then
        (if code = 0x1E then 0x41 else if code = 0x1A then 0xDD else 0)
      else if code = 0x41 then 0x61
      else if code = 0xDD then 0x800000B4
      else 0
    toUnicodeEx := fun vk _ _ =>
      if vk = 0x41 then { numChars := 1, buff := [0x61, 0, 0] }
      else { numChars := 0, buff := [0, 0, 0] } }

/-- The sample keyboard when `GetKeyboardState` fails. -/
def Win32.noKeyboardStateEnv : Win32.Win32Env :=
  { Win32.sampleEnv with getKeyboardState := none }

/-- The `lParam` of a key message with scan code `0x1E` and repeat count 1. -/
def Win32.lParamKeyA : Int := 0x001E0001

/-- A listener that lets the window close. -/
def Carbon.acceptingListener (id : Nat) : Carbon.WindowEventListener :=
  { id := id, windowClosing := fun _ => true }

/-- A listener that declines the close. -/
def Carbon.decliningListener (id : Nat) : Carbon.WindowEventListener :=
  { id := id, windowClosing := fun _ => false }

/-! ## Properties of the window registry -/

namespace WindowEventUtilities

theorem removeRenderWindow_nil (h : WindowHandle) : _removeRenderWindow [] h = [] := by
  simp [_removeRenderWindow, find]

theorem removeRenderWindow_cons (x : WindowHandle) (xs : Windows) (h : WindowHandle) :
    _removeRenderWindow (x :: xs) h = if x = h then xs else x :: _removeRenderWindow xs h := by
  by_cases hx : x = h
  · simp [_removeRenderWindow, find, hx]
  · by_cases hf : find xs h = xs.length
    · simp [_removeRenderWindow, find, hx, hf]
    · simp [_removeRenderWindow, find, hx, hf]

theorem removeRenderWindow_eq_erase (L : Windows) (h : WindowHandle) :
    _removeRenderWindow L h = L.erase h := by
  induction L with
  | nil => simp [removeRenderWindow_nil]
  | cons x xs ih =>
    rw [removeRenderWindow_cons, ih, List.erase_cons]
    by_cases hx : x = h <;> simp [hx]

theorem nodup_removeRenderWindow (L : Windows) (h : WindowHandle) (hL : L.Nodup) :
    (_removeRenderWindow L h).Nodup := by
  rw [removeRenderWindow_eq_erase]
  exact hL.erase h

theorem nodup_addRenderWindow (L : Windows) (h : WindowHandle) (hL : L.Nodup) (hh : h ∉ L) :
    (_addRenderWindow L h).Nodup := by
  unfold _addRenderWindow
  rw [List.nodup_append]
  refine ⟨hL, List.nodup_singleton h, ?_⟩
  intro a ha hb
  simp only [List.mem_singleton] at hb
  exact hh (hb ▸ ha)

theorem nodup_runCalls (calls : List RegistryCall) :
    ∀ ws : Windows, ws.Nodup → addsAreFresh ws calls = true → (runCalls ws calls).Nodup := by
  induction calls with
  | nil => intro ws hws _; simpa [runCalls] using hws
  | cons c rest ih =>
    intro ws hws hfresh
    cases c with
    | add h =>
      simp only [addsAreFresh, Bool.and_eq_true, decide_eq_true_eq] at hfresh
      obtain ⟨hh, hrest⟩ := hfresh
      exact ih (_addRenderWindow ws h) (nodup_addRenderWindow ws h hws hh) hrest
    | remove h =>
      exact ih (_removeRenderWindow ws h) (nodup_removeRenderWindow ws h hws) hfresh

/-- C1 (as stated, refuted): registering the pointer 7 twice leaves the registry `[7, 7]`, which
holds a pointer more than once. -/
theorem addRenderWindow_twice_duplicates :
    runCalls [] [.add 7, .add 7] = [7, 7] ∧ ¬ (runCalls [] [.add 7, .add 7]).Nodup := by
  decide

/-- C1 (amended): `_addRenderWindow` appends unconditionally, and starting from the empty
registry the list holds no pointer twice after every sequence of `_addRenderWindow` /
`_removeRenderWindow` calls in which no pointer is added while it is registered. -/
theorem registry_nodup_of_fresh_adds (calls : List RegistryCall)
    (hfresh : addsAreFresh [] calls = true) :
    (runCalls [] calls).Nodup ∧
      ∀ (ws : Windows) (h : WindowHandle),
        (_addRenderWindow ws h).count h = ws.count h + 1 ∧
        (_addRenderWindow ws h).length = ws.length + 1 := by
  refine ⟨nodup_runCalls calls [] List.nodup_nil hfresh, ?_⟩
  intro ws h
  simp [_addRenderWindow]

/-- C1 witness: add 1, add 2, remove 1, add 1 again. -/
theorem registry_nodup_of_fresh_adds_witness :
    addsAreFresh [] [.add 1, .add 2, .remove 1, .add 1] = true ∧
      (runCalls [] [.add 1, .add 2, .remove 1, .add 1]).Nodup :=
  ⟨by decide,
    (registry_nodup_of_fresh_adds [.add 1, .add 2, .remove 1, .add 1] (by decide)).1⟩

/-- C7: `_removeRenderWindow L h` is `L` with the first occurrence of `h` erased: an absent
`h` leaves `L` as it is, a present `h` splits `L` as `pre ++ h :: post` with `h` not in `pre`
and leaves `pre ++ post`, one entry shorter. -/
theorem removeRenderWindow_erases_first (L : Windows) (h : WindowHandle) :
    _removeRenderWindow L h = L.erase h ∧
      (h ∉ L → _removeRenderWindow L h = L) ∧
      (h ∈ L → ∃ pre post, L = pre ++ h :: post ∧ h ∉ pre ∧
        _removeRenderWindow L h = pre ++ post ∧
        (_removeRenderWindow L h).length + 1 = L.length) := by
  refine ⟨removeRenderWindow_eq_erase L h, ?_, ?_⟩
  · intro hn
    rw [removeRenderWindow_eq_erase, List.erase_of_not_mem hn]
  · intro hm
    obtain ⟨pre, post, hpre, hL, he⟩ := List.exists_erase_eq hm
    refine ⟨pre, post, hL, hpre, ?_, ?_⟩
    · rw [removeRenderWindow_eq_erase, he]
    · rw [removeRenderWindow_eq_erase, he, hL]
      simp
      omega

end WindowEventUtilities

/-! ## Properties of the Win32 window procedure -/

namespace Win32

theorem wndProc_window (env : Win32Env) (w : RenderWindow) (uMsg wParam : Nat) (lParam : Int)
    (hmsg : uMsg ≠ WM_CREATE) :
    _WndProc env (some w) uMsg wParam lParam =
      { userData := some (wndProcSwitch env (Exec.start w) uMsg wParam lParam).1.win
        log := (wndProcSwitch env (Exec.start w) uMsg wParam lParam).1.log
        result := (wndProcSwitch env (Exec.start w) uMsg wParam lParam).2 } := by
  simp [_WndProc, hmsg]

theorem wndProcSwitch_char (env : Win32Env) (e : Exec) (uMsg wParam : Nat) (lParam : Int)
    (hmsg : uMsg = WM_CHAR ∨ uMsg = WM_DEADCHAR) :
    wndProcSwitch env e uMsg wParam lParam =
      if isSuppressedKey wParam then (e, .defWindowProc) else displayableChar env e lParam := by
  rcases hmsg with h | h <;> subst h <;>
    simp [wndProcSwitch, WM_CHAR, WM_DEADCHAR, WM_ACTIVATE, WM_SYSKEYDOWN, WM_SYSKEYUP,
      WM_SYSCHAR, WM_ENTERSIZEMOVE, WM_EXITSIZEMOVE, WM_MOVE, WM_DISPLAYCHANGE, WM_SIZE,
      WM_SETCURSOR, WM_GETMINMAXINFO, WM_CLOSE, WM_MOUSEMOVE]

theorem displayableChar_eq (env : Win32Env) (e : Exec) (lParam : Int) :
    displayableChar env e lParam =
      ({ win := e.win,
         log := e.log ++ (displayableChar env (Exec.start sampleWindow) lParam).1.log },
        .value 0) := by
  cases hks : env.getKeyboardState with
  | none => simp [displayableChar, hks, Exec.start]
  | some ks =>
    by_cases hvk : resolveVk env (scanCodeOf lParam) = 0
    · simp [displayableChar, hks, hvk, Exec.start]
    · by_cases hd : isDeadKey env (resolveVk env (scanCodeOf lParam)) = true
      · simp [displayableChar, hks, hvk, hd, Exec.start]
      · by_cases hn : (env.toUnicodeEx (resolveVk env (scanCodeOf lParam)) (scanCodeOf lParam)
            ks).numChars = 1
        · by_cases hs : env.charInputSlots = 0
          · simp [displayableChar, hks, hvk, hd, hn, hs, Exec.start]
          · simp [displayableChar, hks, hvk, hd, hn, hs, Exec.start, Exec.call]
        · simp [displayableChar, hks, hvk, hd, hn, Exec.start]

/-- No character is reported when the key state is unavailable, the scan code is unmapped, the
key is a dead key, or the conversion does not yield exactly one unit. -/
theorem displayableChar_suppressed (env : Win32Env) (e : Exec) (lParam : Int)
    (h : env.getKeyboardState = none ∨ resolveVk env (scanCodeOf lParam) = 0 ∨
      isDeadKey env (resolveVk env (scanCodeOf lParam)) = true ∨
      ∀ ks, env.getKeyboardState = some ks →
        (env.toUnicodeEx (resolveVk env (scanCodeOf lParam)) (scanCodeOf lParam) ks).numChars
          ≠ 1) :
    displayableChar env e lParam = (e, .value 0) := by
  cases hks : env.getKeyboardState with
  | none => simp [displayableChar, hks]
  | some ks =>
    by_cases hvk : resolveVk env (scanCodeOf lParam) = 0
    · simp [displayableChar, hks, hvk]
    · by_cases hd : isDeadKey env (resolveVk env (scanCodeOf lParam)) = true
      · simp [displayableChar, hks, hvk, hd]
      · rcases h with h | h | h | h
        · simp [hks] at h
        · exact absurd h hvk
        · exact absurd h hd
        · simp [displayableChar, hks, hvk, hd, h ks hks]

/-- A character is reported once when every check of the branch passes. -/
theorem displayableChar_delivered (env : Win32Env) (e : Exec) (lParam : Int) (ks : List Nat)
    (hks : env.getKeyboardState = some ks)
    (hvk : resolveVk env (scanCodeOf lParam) ≠ 0)
    (hd : isDeadKey env (resolveVk env (scanCodeOf lParam)) = false)
    (hn : (env.toUnicodeEx (resolveVk env (scanCodeOf lParam)) (scanCodeOf lParam)
      ks).numChars = 1) :
    displayableChar env e lParam =
      (if env.charInputSlots ≠ 0 then
          e.call (.onCharInput (finalCharOf
            (env.toUnicodeEx (resolveVk env (scanCodeOf lParam)) (scanCodeOf lParam) ks)))
        else e, .value 0) := by
  simp [displayableChar, hks, hvk, hd, hn]

/-- C4 (as stated, refuted): a window that already holds the input focus is activated, and the
input subsystem is notified all the same. -/
theorem wm_activate_notifies_focused_window :
    focusedWindow.hasFocus = true ∧ LOWORD 1 ≠ WA_INACTIVE ∧
      (_WndProc sampleEnv (some focusedWindow) WM_ACTIVATE 1 0).log =
        [Call.setActive true, Call.inputWindowChanged 1] ∧
      countCalls Call.isInputWindowChanged
        (_WndProc sampleEnv (some focusedWindow) WM_ACTIVATE 1 0).log = 1 := by
  decide

/-- C4 (amended): for a non-null window pointer, `WM_ACTIVATE` with
`LOWORD(wParam) != WA_INACTIVE` sets `active = true` and ends with `hasFocus = true`; it calls
`_setHasFocus(true)` exactly when the window did not hold the focus before, and it notifies the
input subsystem (`inputWindowChanged`) exactly once on every activation, focused before or not;
the message then goes on to `DefWindowProc`. -/
theorem wm_activate_active (env : Win32Env) (w : RenderWindow) (wParam : Nat) (lParam : Int)
    (hact : LOWORD wParam ≠ WA_INACTIVE) :
    (_WndProc env (some w) WM_ACTIVATE wParam lParam).userData =
        some { w with active := true, hasFocus := true } ∧
      (_WndProc env (some w) WM_ACTIVATE wParam lParam).log =
        Call.setActive true :: (if w.hasFocus then [] else [Call._setHasFocus true]) ++
          [Call.inputWindowChanged w.handle] ∧
      countCalls Call.isInputWindowChanged
        (_WndProc env (some w) WM_ACTIVATE wParam lParam).log = 1 ∧
      (_WndProc env (some w) WM_ACTIVATE wParam lParam).result = .defWindowProc := by
  rw [wndProc_window env w WM_ACTIVATE wParam lParam (by decide)]
  cases hf : w.hasFocus <;>
    simp [wndProcSwitch, hact, Exec.start, Exec.setActive, Exec._setHasFocus, Exec.call,
      RenderWindow.setActive, RenderWindow._setHasFocus, hf, countCalls,
      Call.isInputWindowChanged, List.countP_cons]

/-- C4 witness: the unfocused sample window is activated by a click (`WA_CLICKACTIVE`). -/
theorem wm_activate_active_witness :
    LOWORD 2 ≠ WA_INACTIVE ∧
      (_WndProc sampleEnv (some sampleWindow) WM_ACTIVATE 2 0).log =
        Call.setActive true :: (if sampleWindow.hasFocus then [] else [Call._setHasFocus true])
          ++ [Call.inputWindowChanged sampleWindow.handle] :=
  ⟨by decide, (wm_activate_active sampleEnv sampleWindow 2 0 (by decide)).2.1⟩

/-- C5: a `WM_CHAR` / `WM_DEADCHAR` message fires `onCharInput` zero times when (a) `wParam` is
backspace, linefeed, carriage return, escape or tab, or (b) the scan code resolves to virtual key
0, or (c) the resolved key is a dead key, or (d) the conversion returns a count other than 1;
and whatever state earlier messages left in the window object, a key message makes the same calls
and returns the same way, and leaves the window object as it found it. -/
theorem char_input_suppressed (env : Win32Env) (userData : Option RenderWindow)
    (uMsg wParam : Nat) (lParam : Int)
    (hmsg : uMsg = WM_CHAR ∨ uMsg = WM_DEADCHAR)
    (hsup : (wParam = VK_BACK ∨ wParam = 0x0A ∨ wParam = 0x0D ∨ wParam = VK_ESCAPE ∨
        wParam = VK_TAB) ∨
      resolveVk env (scanCodeOf lParam) = 0 ∨
      isDeadKey env (resolveVk env (scanCodeOf lParam)) = true ∨
      ∀ ks, env.getKeyboardState = some ks →
        (env.toUnicodeEx (resolveVk env (scanCodeOf lParam)) (scanCodeOf lParam) ks).numChars
          ≠ 1) :
    countCalls Call.isCharInput (_WndProc env userData uMsg wParam lParam).log = 0 ∧
      ∀ (w₁ w₂ : RenderWindow) (wParam' : Nat) (lParam' : Int),
        (_WndProc env (some w₁) uMsg wParam' lParam').log =
            (_WndProc env (some w₂) uMsg wParam' lParam').log ∧
          (_WndProc env (some w₁) uMsg wParam' lParam').result =
            (_WndProc env (some w₂) uMsg wParam' lParam').result ∧
          (_WndProc env (some w₁) uMsg wParam' lParam').userData = some w₁ := by
  have hne : uMsg ≠ WM_CREATE := by
    rcases hmsg with h | h <;> subst h <;> decide
  constructor
  · cases userData with
    | none => simp [_WndProc, hne, countCalls]
    | some w =>
      rw [wndProc_window env w uMsg wParam lParam hne,
        wndProcSwitch_char env _ uMsg wParam lParam hmsg]
      by_cases hkey : isSuppressedKey wParam = true
      · simp [hkey, Exec.start, countCalls]
      · have hd : displayableChar env (Exec.start w) lParam = (Exec.start w, .value 0) := by
          apply displayableChar_suppressed
          rcases hsup with h | h | h | h
          · exact absurd (by rcases h with h | h | h | h | h <;> subst h <;> decide) hkey
          · exact Or.inr (Or.inl h)
          · exact Or.inr (Or.inr (Or.inl h))
          · exact Or.inr (Or.inr (Or.inr h))
        rw [if_neg hkey, hd]
        simp [Exec.start, countCalls]
  · intro w₁ w₂ wParam' lParam'
    rw [wndProc_window env w₁ uMsg wParam' lParam' hne,
      wndProc_window env w₂ uMsg wParam' lParam' hne,
      wndProcSwitch_char env _ uMsg wParam' lParam' hmsg,
      wndProcSwitch_char env _ uMsg wParam' lParam' hmsg]
    by_cases hkey : isSuppressedKey wParam' = true
    · simp [hkey, Exec.start]
    · rw [displayableChar_eq env (Exec.start w₁), displayableChar_eq env (Exec.start w₂)]
      simp [hkey, Exec.start]

/-- C5 witness: a backspace on the sample keyboard. -/
theorem char_input_suppressed_witness :
    countCalls Call.isCharInput
      (_WndProc sampleEnv (some sampleWindow) WM_CHAR VK_BACK lParamKeyA).log = 0 :=
  (char_input_suppressed sampleEnv (some sampleWindow) WM_CHAR VK_BACK lParamKeyA
    (Or.inl rfl) (Or.inl (Or.inl rfl))).1

/-- C6 (as stated, refuted): the key `A` on the sample keyboard is no control key, resolves to
virtual key `0x41`, is no dead key and converts to the one unit `a`, and a slot is connected;
but `GetKeyboardState` fails, and `onCharInput` is not fired.  With the keyboard state available
but a null window pointer the message goes to `DefWindowProc` and nothing is fired either. -/
theorem wm_char_without_keyboard_state :
    isSuppressedKey 0x61 = false ∧
      resolveVk noKeyboardStateEnv (scanCodeOf lParamKeyA) = 0x41 ∧
      isDeadKey noKeyboardStateEnv 0x41 = false ∧
      (∀ ks, noKeyboardStateEnv.toUnicodeEx 0x41 (scanCodeOf lParamKeyA) ks =
        { numChars := 1, buff := [0x61, 0, 0] }) ∧
      noKeyboardStateEnv.charInputSlots = 1 ∧
      (_WndProc noKeyboardStateEnv (some sampleWindow) WM_CHAR 0x61 lParamKeyA).log = [] ∧
      countCalls Call.isCharInput
        (_WndProc noKeyboardStateEnv (some sampleWindow) WM_CHAR 0x61 lParamKeyA).log = 0 ∧
      _WndProc sampleEnv none WM_CHAR 0x61 lParamKeyA =
        { userData := none, log := [], result := .defWindowProc } := by
  refine ⟨by decide, by decide, by decide, fun _ => rfl, rfl, by decide, by decide, by decide⟩

/-- C6 (amended): for a non-null window pointer and a `WM_CHAR` message whose `wParam` is none of
the five suppressed keys, for which `GetKeyboardState` succeeds, whose scan code
`(lParam >> 16) & 0xFF` resolves to a non-zero virtual key that is no dead key and whose
conversion yields exactly one unit `c`: with at least one slot connected `onCharInput` is fired
exactly once, with `c` widened to 32 bits; with no slot nothing is fired; either way `_WndProc`
returns 0 without `DefWindowProc` and leaves the window as it was. -/
theorem wm_char_delivered (env : Win32Env) (w : RenderWindow) (wParam : Nat) (lParam : Int)
    (ks : List Nat)
    (hkey : wParam ≠ VK_BACK ∧ wParam ≠ 0x0A ∧ wParam ≠ 0x0D ∧ wParam ≠ VK_ESCAPE ∧
      wParam ≠ VK_TAB)
    (hks : env.getKeyboardState = some ks)
    (hvk : resolveVk env (scanCodeOf lParam) ≠ 0)
    (hd : isDeadKey env (resolveVk env (scanCodeOf lParam)) = false)
    (hn : (env.toUnicodeEx (resolveVk env (scanCodeOf lParam)) (scanCodeOf lParam)
      ks).numChars = 1) :
    (_WndProc env (some w) WM_CHAR wParam lParam).log =
        (if env.charInputSlots ≠ 0 then
          [Call.onCharInput ((env.toUnicodeEx (resolveVk env (scanCodeOf lParam))
            (scanCodeOf lParam) ks).buff.getD 0 0 % 2 ^ 16)]
        else []) ∧
      countCalls Call.isCharInput (_WndProc env (some w) WM_CHAR wParam lParam).log =
        (if env.charInputSlots ≠ 0 then 1 else 0) ∧
      (_WndProc env (some w) WM_CHAR wParam lParam).result = .value 0 ∧
      (_WndProc env (some w) WM_CHAR wParam lParam).userData = some w := by
  have hsk : isSuppressedKey wParam = false := by
    obtain ⟨h1, h2, h3, h4, h5⟩ := hkey
    simp [isSuppressedKey, h1, h2, h3, h4, h5]
  rw [wndProc_window env w WM_CHAR wParam lParam (by decide),
    wndProcSwitch_char env _ WM_CHAR wParam lParam (Or.inl rfl),
    displayableChar_delivered env _ lParam ks hks hvk hd hn]
  by_cases hs : env.charInputSlots = 0
  · simp [hsk, hs, Exec.start, countCalls]
  · simp [hsk, hs, Exec.start, Exec.call, countCalls, Call.isCharInput, finalCharOf]
    omega

/-- C6 witness: the key `A` on the sample keyboard reports the character `a` once. -/
theorem wm_char_delivered_witness :
    (_WndProc sampleEnv (some sampleWindow) WM_CHAR 0x61 lParamKeyA).log =
      [Call.onCharInput 0x61] :=
  (wm_char_delivered sampleEnv sampleWindow 0x61 lParamKeyA (List.replicate 256 0)
    (by decide) rfl (by decide) (by decide) (by decide)).1

/-- C10: for a non-null window pointer and every `wParam` / `lParam`, `WM_CLOSE` makes exactly
one call, `gApplication().stopMainLoop()`, so no window mutator runs and neither signal is
fired; the window object is left as it was and `_WndProc` returns 0, not the value of
`DefWindowProc`. -/
theorem wm_close_stops_main_loop (env : Win32Env) (w : RenderWindow) (wParam : Nat)
    (lParam : Int) :
    (_WndProc env (some w) WM_CLOSE wParam lParam).log = [Call.stopMainLoop] ∧
      countCalls Call.isStopMainLoop (_WndProc env (some w) WM_CLOSE wParam lParam).log = 1 ∧
      countCalls Call.isMutator (_WndProc env (some w) WM_CLOSE wParam lParam).log = 0 ∧
      countCalls Call.isCharInput (_WndProc env (some w) WM_CLOSE wParam lParam).log = 0 ∧
      countCalls Call.isMouseMoved (_WndProc env (some w) WM_CLOSE wParam lParam).log = 0 ∧
      (_WndProc env (some w) WM_CLOSE wParam lParam).userData = some w ∧
      (_WndProc env (some w) WM_CLOSE wParam lParam).result = .value 0 := by
  rw [wndProc_window env w WM_CLOSE wParam lParam (by decide)]
  simp [wndProcSwitch, WM_CLOSE, WM_ACTIVATE, WM_SYSKEYDOWN, WM_SYSKEYUP,
      WM_SYSCHAR, WM_ENTERSIZEMOVE, WM_EXITSIZEMOVE, WM_MOVE, WM_DISPLAYCHANGE, WM_SIZE,
      WM_SETCURSOR, WM_GETMINMAXINFO, Exec.start, Exec.call, countCalls, Call.isStopMainLoop,
      Call.isMutator, Call.isCharInput, Call.isMouseMoved]

end Win32

/-! ## Properties of the Carbon handler -/

namespace Carbon

theorem notifyAll_spec (method : ListenerMethod) (ls : List WindowEventListener) :
    ∀ e : Exec, (notifyAll method e ls).win = e.win ∧
      (notifyAll method e ls).log =
        e.log ++ ls.map (fun l => Call.listener l.id method e.win.handle) := by
  induction ls with
  | nil => intro e; simp [notifyAll]
  | cons l ls ih =>
    intro e
    have h := ih (notifyStep method e l)
    have hc : notifyAll method e (l :: ls) = notifyAll method (notifyStep method e l) ls := rfl
    rw [hc, h.1, h.2]
    simp [notifyStep, Exec.call]

theorem askClosing_fold (ls : List WindowEventListener) :
    ∀ s : Exec × Bool,
      (ls.foldl askStep s).1.win = s.1.win ∧
      (ls.foldl askStep s).1.log =
          s.1.log ++ ls.map (fun l => Call.listener l.id .windowClosing s.1.win.handle) ∧
      (ls.foldl askStep s).2 = (s.2 && ls.all (fun l => l.windowClosing s.1.win)) := by
  induction ls with
  | nil => intro s; simp
  | cons l ls ih =>
    intro s
    have h := ih (askStep s l)
    rw [List.foldl_cons, h.1, h.2.1, h.2.2]
    cases hl : l.windowClosing s.1.win <;> simp [askStep, hl, Exec.call]

theorem askClosing_spec (e : Exec) (ls : List WindowEventListener) :
    (askClosing e ls).1.win = e.win ∧
      (askClosing e ls).1.log =
        e.log ++ ls.map (fun l => Call.listener l.id .windowClosing e.win.handle) ∧
      (askClosing e ls).2 = ls.all (fun l => l.windowClosing e.win) := by
  have h := askClosing_fold ls (e, true)
  simpa [askClosing] using h

theorem lower_bound_cons (x : WindowHandle × WindowEventListener) (xs : WindowEventListeners)
    (k : WindowHandle) :
    lower_bound (x :: xs) k = if x.1 < k then lower_bound xs k + 1 else 0 := by
  by_cases h : x.1 < k <;> simp [lower_bound, List.takeWhile_cons, h]

theorem upper_bound_cons (x : WindowHandle × WindowEventListener) (xs : WindowEventListeners)
    (k : WindowHandle) :
    upper_bound (x :: xs) k = if x.1 ≤ k then upper_bound xs k + 1 else 0 := by
  by_cases h : x.1 ≤ k <;> simp [upper_bound, List.takeWhile_cons, h]

theorem lower_bound_le_upper_bound (m : WindowEventListeners) (k : WindowHandle) :
    lower_bound m k ≤ upper_bound m k := by
  induction m with
  | nil => simp [lower_bound, upper_bound]
  | cons x xs ih =>
    rw [lower_bound_cons, upper_bound_cons]
    by_cases h : x.1 < k
    · simp [h, le_of_lt h, ih]
    · simp [h]

theorem upper_bound_le_length (m : WindowEventListeners) (k : WindowHandle) :
    upper_bound m k ≤ m.length := by
  induction m with
  | nil => simp [upper_bound]
  | cons x xs ih =>
    rw [upper_bound_cons]
    by_cases h : x.1 ≤ k <;> simp [h, ih]

theorem lower_bound_eq_zero (xs : WindowEventListeners) (k : WindowHandle)
    (h : ∀ y ∈ xs, k ≤ y.1) : lower_bound xs k = 0 := by
  cases xs with
  | nil => simp [lower_bound]
  | cons y ys =>
    rw [lower_bound_cons]
    have := h y (List.mem_cons_self y ys)
    simp [not_lt.mpr this]

/-- In a key-ordered multimap the range from `lower_bound(k)` to `upper_bound(k)` holds exactly
the entries with key `k`, in the order of the container. -/
theorem iterate_eq_filter (m : WindowEventListeners) (k : WindowHandle) (hs : KeySorted m) :
    iterate m (lower_bound m k) (upper_bound m k) =
      (m.filter (fun entry => decide (entry.1 = k))).map Prod.snd := by
  induction m with
  | nil => simp [iterate, lower_bound, upper_bound]
  | cons x xs ih =>
    have hs' : KeySorted xs := (List.pairwise_cons.mp hs).2
    have hall : ∀ y ∈ xs, x.1 ≤ y.1 := (List.pairwise_cons.mp hs).1
    have ih' := ih hs'
    rw [lower_bound_cons, upper_bound_cons]
    rcases lt_trichotomy x.1 k with hlt | heq | hgt
    · have hne : x.1 ≠ k := ne_of_lt hlt
      simp only [hlt, le_of_lt hlt, if_true]
      simp only [iterate, List.drop_succ_cons, Nat.add_sub_add_right] at ih' ⊢
      rw [ih']
      simp [hne]
    · have hge : ∀ y ∈ xs, k ≤ y.1 := fun y hy => heq ▸ hall y hy
      have hlb := lower_bound_eq_zero xs k hge
      rw [hlb] at ih'
      simp only [iterate, List.drop_zero, Nat.sub_zero] at ih'
      simp [heq, iterate, ih']
    · have hnone : xs.filter (fun entry => decide (entry.1 = k)) = [] := by
        rw [List.filter_eq_nil_iff]
        intro y hy
        have := hall y hy
        simp only [decide_eq_true_eq]
        exact ne_of_gt (lt_of_lt_of_le hgt this)
      simp [not_lt.mpr (le_of_lt hgt), not_le.mpr hgt, iterate, hnone, ne_of_gt hgt]

theorem registerListener_nil (k : WindowHandle) (l : WindowEventListener) :
    registerListener [] k l = [(k, l)] := by
  simp [registerListener]

theorem registerListener_cons (x : WindowHandle × WindowEventListener)
    (xs : WindowEventListeners) (k : WindowHandle) (l : WindowEventListener) :
    registerListener (x :: xs) k l =
      if x.1 ≤ k then x :: registerListener xs k l else (k, l) :: x :: xs := by
  by_cases h : x.1 ≤ k <;> simp [registerListener, upper_bound_cons, h]

theorem mem_registerListener (m : WindowEventListeners) (k : WindowHandle)
    (l : WindowEventListener) (y : WindowHandle × WindowEventListener)
    (hy : y ∈ registerListener m k l) : y = (k, l) ∨ y ∈ m := by
  induction m with
  | nil => simpa [registerListener_nil] using hy
  | cons x xs ih =>
    rw [registerListener_cons] at hy
    by_cases h : x.1 ≤ k
    · rw [if_pos h, List.mem_cons] at hy
      rcases hy with hy | hy
      · exact Or.inr (hy ▸ List.mem_cons_self x xs)
      · rcases ih hy with h1 | h1
        · exact Or.inl h1
        · exact Or.inr (List.mem_cons_of_mem x h1)
    · rw [if_neg h, List.mem_cons] at hy
      exact hy

theorem keySorted_registerListener (m : WindowEventListeners) (k : WindowHandle)
    (l : WindowEventListener) (hs : KeySorted m) : KeySorted (registerListener m k l) := by
  induction m with
  | nil => simp [registerListener_nil, KeySorted]
  | cons x xs ih =>
    have hs' : KeySorted xs := (List.pairwise_cons.mp hs).2
    have hall : ∀ y ∈ xs, x.1 ≤ y.1 := (List.pairwise_cons.mp hs).1
    rw [registerListener_cons]
    by_cases h : x.1 ≤ k
    · rw [if_pos h]
      refine List.pairwise_cons.mpr ⟨?_, ih hs'⟩
      intro y hy
      rcases mem_registerListener xs k l y hy with h1 | h1
      · rw [h1]; exact h
      · exact hall y h1
    · rw [if_neg h]
      refine List.pairwise_cons.mpr ⟨?_, hs⟩
      intro y hy
      have hk : k ≤ x.1 := le_of_lt (not_le.mp h)
      rcases List.mem_cons.mp hy with h1 | h1
      · rw [h1]; exact hk
      · exact le_trans hk (hall y h1)

theorem filter_registerListener (m : WindowEventListeners) (k w : WindowHandle)
    (l : WindowEventListener) (hs : KeySorted m) :
    (registerListener m k l).filter (fun entry => decide (entry.1 = w)) =
      m.filter (fun entry => decide (entry.1 = w)) ++ (if k = w then [(k, l)] else []) := by
  induction m with
  | nil => by_cases hk : k = w <;> simp [registerListener_nil, hk]
  | cons x xs ih =>
    have hs' : KeySorted xs := (List.pairwise_cons.mp hs).2
    have hall : ∀ y ∈ xs, x.1 ≤ y.1 := (List.pairwise_cons.mp hs).1
    rw [registerListener_cons]
    by_cases h : x.1 ≤ k
    · rw [if_pos h, List.filter_cons, ih hs', List.filter_cons]
      by_cases hx : x.1 = w <;> simp [hx]
    · rw [if_neg h]
      by_cases hk : k = w
      · have hnone : (x :: xs).filter (fun entry => decide (entry.1 = w)) = [] := by
          rw [List.filter_eq_nil_iff]
          intro y hy
          simp only [decide_eq_true_eq]
          have hlt : k < x.1 := not_le.mp h
          rcases List.mem_cons.mp hy with h1 | h1
          · rw [h1, ← hk]; exact ne_of_gt hlt
          · rw [← hk]; exact ne_of_gt (lt_of_lt_of_le hlt (hall y h1))
        rw [List.filter_cons, hnone]
        simp [hk]
      · rw [List.filter_cons]
        simp [hk]

theorem registerAll_fold (regs : List (WindowHandle × WindowEventListener)) (w : WindowHandle) :
    ∀ m : WindowEventListeners, KeySorted m →
      KeySorted (regs.foldl (fun m r => registerListener m r.1 r.2) m) ∧
      (regs.foldl (fun m r => registerListener m r.1 r.2) m).filter
          (fun entry => decide (entry.1 = w)) =
        m.filter (fun entry => decide (entry.1 = w)) ++
          regs.filter (fun entry => decide (entry.1 = w)) := by
  induction regs with
  | nil => intro m hm; simpa using hm
  | cons r rest ih =>
    intro m hm
    have h := ih (registerListener m r.1 r.2) (keySorted_registerListener m r.1 r.2 hm)
    rw [List.foldl_cons]
    refine ⟨h.1, ?_⟩
    rw [h.2, filter_registerListener m r.1 w r.2 hm, List.filter_cons]
    obtain ⟨rk, rl⟩ := r
    by_cases hr : rk = w <;> simp [hr]

/-- The range the handler walks holds the listeners registered for the window, in registration
order. -/
theorem iterate_registerAll (regs : List (WindowHandle × WindowEventListener))
    (w : WindowHandle) :
    iterate (registerAll regs) (lower_bound (registerAll regs) w)
        (upper_bound (registerAll regs) w) = registeredFor regs w := by
  have h := registerAll_fold regs w [] List.Pairwise.nil
  change KeySorted (registerAll regs) ∧ _ at h
  rw [iterate_eq_filter _ w h.1]
  unfold registeredFor
  have h2 := h.2
  simp only [List.filter_nil, List.nil_append] at h2
  exact congrArg (List.map Prod.snd) h2

theorem filter_listener_calls (method : ListenerMethod) (h : WindowHandle)
    (ls : List WindowEventListener) :
    (ls.map (fun l => Call.listener l.id method h)).filter Call.isListener =
      ls.map (fun l => Call.listener l.id method h) := by
  rw [List.filter_eq_self]
  intro c hc
  obtain ⟨l, _, rfl⟩ := List.mem_map.mp hc
  rfl

/-- The listener calls of one run, for any multimap: the matching method on each listener of
the range from `lower_bound` to `upper_bound`, in that order. -/
theorem handler_listener_calls (native : Metrics) (m : WindowEventListeners) (w : RenderWindow)
    (kind : EventKind) (method : ListenerMethod) (hm : methodFor kind = some method) :
    (_CarbonWindowHandler native m kind (some w)).log.filter Call.isListener =
      (iterate m (lower_bound m w.handle) (upper_bound m w.handle)).map
        (fun l => Call.listener l.id method w.handle) := by
  have hf := filter_listener_calls method w.handle
    (iterate m (lower_bound m w.handle) (upper_bound m w.handle))
  cases kind <;> simp only [methodFor, Option.some.injEq, reduceCtorEq] at hm <;> subst hm
  case kEventWindowDeactivated =>
    cases hd : w.deactivatedOnFocusChange <;>
      simp [_CarbonWindowHandler, finish, notifyAll_spec, Exec.start, Exec.setActive,
        RenderWindow.isDeactivatedOnFocusChange, RenderWindow.setActive, hd,
        List.filter_append, List.filter_cons, Call.isListener, hf]
  case kEventWindowClose =>
    simp only [_CarbonWindowHandler]
    split_ifs <;> simp [finish, askClosing_spec, Exec.start, hf]
  all_goals
    simp [_CarbonWindowHandler, finish, notifyAll_spec, Exec.start, Exec.setActive,
      Exec.setVisible, Exec.windowMovedOrResized, RenderWindow.setActive,
      RenderWindow.setVisible, RenderWindow.windowMovedOrResized,
      List.filter_append, List.filter_cons, Call.isListener, hf]

/-- The status of a close request: unhandled when every listener of the range accepts, handled
when one declines. -/
theorem handler_close_status (native : Metrics) (m : WindowEventListeners) (w : RenderWindow) :
    (_CarbonWindowHandler native m .kEventWindowClose (some w)).status =
      (if (iterate m (lower_bound m w.handle) (upper_bound m w.handle)).all
          (fun l => l.windowClosing w) then eventNotHandledErr else noErr) ∧
    (_CarbonWindowHandler native m .kEventWindowClose (some w)).win = some w := by
  have h := askClosing_spec (Exec.start w)
    (iterate m (lower_bound m w.handle) (upper_bound m w.handle))
  simp only [Exec.start] at h
  cases hc : (askClosing (Exec.start w)
      (iterate m (lower_bound m w.handle) (upper_bound m w.handle))).2
  · have hall := h.2.2
    simp only [Exec.start] at hc
    rw [hc] at hall
    simp [_CarbonWindowHandler, finish, Exec.start, hc, ← hall, h.1]
  · have hall := h.2.2
    simp only [Exec.start] at hc
    rw [hc] at hall
    simp [_CarbonWindowHandler, finish, Exec.start, hc, ← hall, h.1]

/-- C2 (as stated, refuted): of two listeners registered for the window one declines the close;
the handler returns `noErr`, which is not `eventNotHandledErr`. -/
theorem carbon_close_declined_returns_noErr :
    (_CarbonWindowHandler sampleWindow.bounds
        (registerAll [(1, acceptingListener 10), (1, decliningListener 11)])
        .kEventWindowClose (some focusedWindow)).status = noErr ∧
      noErr ≠ eventNotHandledErr := by
  decide

/-- C2 (amended): on `kEventWindowClose` for a non-null window the handler returns
`eventNotHandledErr` (the event goes on to the standard handler, which disposes the window)
when every listener registered for the window accepts, none registered included; when at least
one declines, the close is vetoed by returning `noErr`, the event counting as handled.  The
window object is not changed either way. -/
theorem carbon_close_status (native : Metrics)
    (regs : List (WindowHandle × WindowEventListener)) (w : RenderWindow) :
    ((∃ l ∈ registeredFor regs w.handle, l.windowClosing w = false) →
        (_CarbonWindowHandler native (registerAll regs) .kEventWindowClose (some w)).status =
          noErr) ∧
      ((∀ l ∈ registeredFor regs w.handle, l.windowClosing w = true) →
        (_CarbonWindowHandler native (registerAll regs) .kEventWindowClose (some w)).status =
          eventNotHandledErr) ∧
      (_CarbonWindowHandler native (registerAll regs) .kEventWindowClose (some w)).win =
        some w := by
  have h := handler_close_status native (registerAll regs) w
  rw [iterate_registerAll] at h
  refine ⟨?_, ?_, h.2⟩
  · rintro ⟨l, hl, hfalse⟩
    rw [h.1, if_neg]
    intro hall
    have := List.all_eq_true.mp hall l hl
    rw [hfalse] at this
    exact Bool.false_ne_true this
  · intro hall
    rw [h.1, if_pos]
    exact List.all_eq_true.mpr hall

/-- C8: for every sequence of registrations, every non-null window and every event kind the
handler names, the listener calls of one run are the matching method on each listener
registered for that window, once per registration and in registration order, and nothing else;
`windowClosing` is asked of all of them whatever the earlier answers. -/
theorem carbon_dispatch_ordered (native : Metrics)
    (regs : List (WindowHandle × WindowEventListener)) (w : RenderWindow) (kind : EventKind)
    (method : ListenerMethod) (hm : methodFor kind = some method) :
    (_CarbonWindowHandler native (registerAll regs) kind (some w)).log.filter Call.isListener =
      (registeredFor regs w.handle).map (fun l => Call.listener l.id method w.handle) := by
  rw [handler_listener_calls native (registerAll regs) w kind method hm, iterate_registerAll]

/-- C8 witness: listeners 10, 11 and 12 are registered for window 1 (11 declines), listener 20
for window 2 in between; a close request asks 10, 11 and 12 in this order. -/
theorem carbon_dispatch_ordered_witness :
    (_CarbonWindowHandler sampleWindow.bounds
        (registerAll [(1, acceptingListener 10), (2, acceptingListener 20),
          (1, decliningListener 11), (1, acceptingListener 12)])
        .kEventWindowClose (some sampleWindow)).log.filter Call.isListener =
      [Call.listener 10 .windowClosing 1, Call.listener 11 .windowClosing 1,
        Call.listener 12 .windowClosing 1] :=
  carbon_dispatch_ordered sampleWindow.bounds
    [(1, acceptingListener 10), (2, acceptingListener 20), (1, decliningListener 11),
      (1, acceptingListener 12)] sampleWindow .kEventWindowClose .windowClosing rfl

theorem listener_calls_no_setHasFocus (method : ListenerMethod) (h : WindowHandle)
    (ls : List WindowEventListener) :
    List.countP Call.isSetHasFocus (ls.map (fun l => Call.listener l.id method h)) = 0 := by
  rw [List.countP_eq_zero]
  intro c hc
  obtain ⟨l, _, rfl⟩ := List.mem_map.mp hc
  simp [Call.isSetHasFocus]

/-- No case of the handler calls `_setHasFocus`, whatever the event kind, the multimap and the
window pointer. -/
theorem handler_never_sets_hasFocus (native : Metrics) (m : WindowEventListeners)
    (kind : EventKind) (wnd : Option RenderWindow) :
    countCalls Call.isSetHasFocus (_CarbonWindowHandler native m kind wnd).log = 0 := by
  cases wnd with
  | none => simp [_CarbonWindowHandler, countCalls]
  | some w =>
    unfold countCalls
    cases kind
    case kEventWindowDeactivated =>
      cases hd : w.deactivatedOnFocusChange <;>
        simp [_CarbonWindowHandler, finish, notifyAll_spec, Exec.start, Exec.setActive,
          RenderWindow.isDeactivatedOnFocusChange, RenderWindow.setActive, hd,
          List.countP_append, List.countP_cons, Call.isSetHasFocus,
          listener_calls_no_setHasFocus]
    case kEventWindowClose =>
      simp only [_CarbonWindowHandler]
      split_ifs <;>
        simp [finish, askClosing_spec, Exec.start, Call.isSetHasFocus]
    all_goals
      simp [_CarbonWindowHandler, finish, notifyAll_spec, Exec.start, Exec.setActive,
        Exec.setVisible, Exec.windowMovedOrResized, RenderWindow.setActive,
        RenderWindow.setVisible, RenderWindow.windowMovedOrResized,
        List.countP_append, List.countP_cons, Call.isSetHasFocus,
        listener_calls_no_setHasFocus]

/-- The calls of `case kEventWindowDeactivated`: `setActive(false)` when the window deactivates
on focus change, then `windowFocusChange` on each listener of the range. -/
theorem handler_deactivated_log (native : Metrics) (m : WindowEventListeners)
    (w : RenderWindow) :
    (_CarbonWindowHandler native m .kEventWindowDeactivated (some w)).log =
      (if w.isDeactivatedOnFocusChange then [Call.setActive false] else []) ++
        (iterate m (lower_bound m w.handle) (upper_bound m w.handle)).map
          (fun l => Call.listener l.id .windowFocusChange w.handle) := by
  cases hd : w.deactivatedOnFocusChange <;>
    simp [_CarbonWindowHandler, finish, notifyAll_spec, Exec.start, Exec.setActive,
      RenderWindow.isDeactivatedOnFocusChange, RenderWindow.setActive, hd]

/-- Carbon `kEventWindowShown` / `kEventWindowExpanded` leave the window active and visible. -/
theorem carbon_restore (native : Metrics) (m : WindowEventListeners) (w : RenderWindow)
    (kind : EventKind) (hk : kind = .kEventWindowShown ∨ kind = .kEventWindowExpanded) :
    (_CarbonWindowHandler native m kind (some w)).win =
      some { w with active := true, visible := true } := by
  rcases hk with h | h <;> subst h <;>
    simp [_CarbonWindowHandler, finish, notifyAll_spec, Exec.start, Exec.setActive,
      Exec.setVisible, RenderWindow.setActive, RenderWindow.setVisible]

end Carbon

/-! ## Properties of the X11 translator and of deactivation -/

namespace X11

/-- The case `MapNotify` sets `active` and nothing else. -/
theorem glx_map_notify (native : Metrics) (atom : Int) (w : RenderWindow) (event : XEvent)
    (ht : event.type = MapNotify) :
    GLXProc native atom w event =
      { win := { w with active := true }, log := [Call.setActive true] } := by
  simp [GLXProc, ht, MapNotify, ClientMessage, DestroyNotify, ConfigureNotify, FocusIn, FocusOut,
    Exec.start, Exec.setActive, RenderWindow.setActive]

/-- C3 (the code at the failing input): a visible window receives `UnmapNotify` and then
`MapNotify`; `MapNotify` calls `setActive(true)` only, and the window ends active but with
`visible = false`. -/
theorem glx_unmap_then_map_stays_hidden :
    focusedWindow.visible = true ∧
      (GLXProc sampleWindow.bounds 0 focusedWindow (eventOfType UnmapNotify)).log =
        [Call.setActive false, Call.setVisible false] ∧
      (GLXProc sampleWindow.bounds 0
        (GLXProc sampleWindow.bounds 0 focusedWindow (eventOfType UnmapNotify)).win
        (eventOfType MapNotify)).log = [Call.setActive true] ∧
      (GLXProc sampleWindow.bounds 0
        (GLXProc sampleWindow.bounds 0 focusedWindow (eventOfType UnmapNotify)).win
        (eventOfType MapNotify)).win.active = true ∧
      (GLXProc sampleWindow.bounds 0
        (GLXProc sampleWindow.bounds 0 focusedWindow (eventOfType UnmapNotify)).win
        (eventOfType MapNotify)).win.visible = false := by
  decide

end X11

/-- C9 (as stated, refuted): a Carbon window that holds the focus receives
`kEventWindowDeactivated` and still has `hasFocus = true` afterwards. -/
theorem carbon_deactivated_keeps_hasFocus :
    focusedWindow.hasFocus = true ∧
      (Carbon._CarbonWindowHandler sampleWindow.bounds (Carbon.registerAll [])
        .kEventWindowDeactivated (some focusedWindow)).win.map RenderWindow.hasFocus =
          some true := by
  decide

theorem deactivation_effects (env : Win32.Win32Env) (native : Metrics)
    (m : Carbon.WindowEventListeners) (w : RenderWindow) (wParam : Nat) (lParam : Int)
    (hin : Win32.LOWORD wParam = Win32.WA_INACTIVE) :
    (Win32._WndProc env (some w) Win32.WM_ACTIVATE wParam lParam).userData =
        some { w with
          active := if w.isDeactivatedOnFocusChange then false else w.active
          hasFocus := false } ∧
      (Win32._WndProc env (some w) Win32.WM_ACTIVATE wParam lParam).log =
        (if w.isDeactivatedOnFocusChange then [Call.setActive false] else []) ++
          (if w.hasFocus then [Call._setHasFocus false] else []) ∧
      countCalls Call.isInputWindowChanged
        (Win32._WndProc env (some w) Win32.WM_ACTIVATE wParam lParam).log = 0 ∧
      (Carbon._CarbonWindowHandler native m .kEventWindowDeactivated (some w)).win =
        some { w with active := if w.isDeactivatedOnFocusChange then false else w.active } ∧
      countCalls Call.isInputWindowChanged
        (Carbon._CarbonWindowHandler native m .kEventWindowDeactivated (some w)).log = 0 := by
  rw [Win32.wndProc_window env w Win32.WM_ACTIVATE wParam lParam (by decide)]
  obtain ⟨handle, active, visible, hasFocus, bounds, flag, closed⟩ := w
  cases flag <;> cases hasFocus <;>
    simp [Win32.wndProcSwitch, hin, Exec.start, Exec.setActive, Exec._setHasFocus,
      RenderWindow.setActive, RenderWindow._setHasFocus, RenderWindow.isDeactivatedOnFocusChange,
      countCalls, Call.isInputWindowChanged, Carbon._CarbonWindowHandler, Carbon.finish,
      Carbon.notifyAll_spec]

/-- C9 (amended): an OS "became inactive" event sets `active = false` if
`isDeactivatedOnFocusChange()` holds and leaves `active` as it was otherwise, on Win32
(`WM_ACTIVATE` with `WA_INACTIVE`) and on Carbon (`kEventWindowDeactivated`) alike, and notifies
the input subsystem on neither.  On Win32 the window ends with `hasFocus = false`
(`_setHasFocus(false)` is called when the focus was held).  The Carbon handler never calls
`_setHasFocus`, on this event (whose calls are `setActive(false)` under the flag and then
`windowFocusChange` on the listeners of the range) or on any other, and leaves `hasFocus` as
it was. -/
theorem deactivation_rule (env : Win32.Win32Env) (native : Metrics)
    (m : Carbon.WindowEventListeners) (w : RenderWindow) (wParam : Nat) (lParam : Int)
    (hin : Win32.LOWORD wParam = Win32.WA_INACTIVE) :
    (Win32._WndProc env (some w) Win32.WM_ACTIVATE wParam lParam).userData =
        some { w with
          active := if w.isDeactivatedOnFocusChange then false else w.active
          hasFocus := false } ∧
      (Win32._WndProc env (some w) Win32.WM_ACTIVATE wParam lParam).log =
        (if w.isDeactivatedOnFocusChange then [Call.setActive false] else []) ++
          (if w.hasFocus then [Call._setHasFocus false] else []) ∧
      countCalls Call.isInputWindowChanged
        (Win32._WndProc env (some w) Win32.WM_ACTIVATE wParam lParam).log = 0 ∧
      (Carbon._CarbonWindowHandler native m .kEventWindowDeactivated (some w)).win =
        some { w with active := if w.isDeactivatedOnFocusChange then false else w.active } ∧
      countCalls Call.isInputWindowChanged
        (Carbon._CarbonWindowHandler native m .kEventWindowDeactivated (some w)).log = 0 ∧
      (Carbon._CarbonWindowHandler native m .kEventWindowDeactivated (some w)).log =
        (if w.isDeactivatedOnFocusChange then [Call.setActive false] else []) ++
          (Carbon.iterate m (Carbon.lower_bound m w.handle)
            (Carbon.upper_bound m w.handle)).map
              (fun l => Call.listener l.id .windowFocusChange w.handle) ∧
      countCalls Call.isSetHasFocus
        (Carbon._CarbonWindowHandler native m .kEventWindowDeactivated (some w)).log = 0 ∧
      ∀ (kind : Carbon.EventKind) (wnd : Option RenderWindow),
        countCalls Call.isSetHasFocus
          (Carbon._CarbonWindowHandler native m kind wnd).log = 0 := by
  obtain ⟨h1, h2, h3, h4, h5⟩ := deactivation_effects env native m w wParam lParam hin
  exact ⟨h1, h2, h3, h4, h5, Carbon.handler_deactivated_log native m w,
    Carbon.handler_never_sets_hasFocus native m .kEventWindowDeactivated (some w),
    fun kind wnd => Carbon.handler_never_sets_hasFocus native m kind wnd⟩

/-- C9 witness: the focused sample window, which deactivates on focus loss, is deactivated:
Win32 calls `setActive(false)` and `_setHasFocus(false)`, Carbon makes no `_setHasFocus`
call. -/
theorem deactivation_rule_witness :
    Win32.LOWORD 0 = Win32.WA_INACTIVE ∧
      (Win32._WndProc Win32.sampleEnv (some focusedWindow) Win32.WM_ACTIVATE 0 0).log =
        (if focusedWindow.isDeactivatedOnFocusChange then [Call.setActive false] else []) ++
          (if focusedWindow.hasFocus then [Call._setHasFocus false] else []) ∧
      countCalls Call.isSetHasFocus
        (Carbon._CarbonWindowHandler sampleWindow.bounds [] .kEventWindowDeactivated
          (some focusedWindow)).log = 0 :=
  ⟨by decide,
    (deactivation_rule Win32.sampleEnv sampleWindow.bounds [] focusedWindow 0 0
      (by decide)).2.1,
    (deactivation_rule Win32.sampleEnv sampleWindow.bounds [] focusedWindow 0 0
      (by decide)).2.2.2.2.2.2.1⟩

/-! ## Events the X11 translator ignores -/

namespace X11

/-- No case of `GLXProc` calls `_setHasFocus`: the focus flag survives every event. -/
theorem glx_keeps_hasFocus (native : Metrics) (atom : Int) (w : RenderWindow) (event : XEvent) :
    (GLXProc native atom w event).win.hasFocus = w.hasFocus := by
  by_cases h1 : event.type = ClientMessage
  · simp [GLXProc, h1, Exec.start, Exec.call]
  by_cases h2 : event.type = DestroyNotify
  · simp [GLXProc, h2, ClientMessage, DestroyNotify, Exec.start, Exec.call]
  by_cases h3 : event.type = ConfigureNotify
  · simp [GLXProc, h3, ClientMessage, DestroyNotify, ConfigureNotify, Exec.start, Exec.call,
      Exec.windowMovedOrResized, RenderWindow.windowMovedOrResized]
  by_cases h4 : event.type = FocusIn
  · simp [GLXProc, h4, ClientMessage, DestroyNotify, ConfigureNotify, FocusIn, Exec.start]
  by_cases h5 : event.type = FocusOut
  · simp [GLXProc, h5, ClientMessage, DestroyNotify, ConfigureNotify, FocusOut, Exec.start]
  by_cases h6 : event.type = MapNotify
  · simp [GLXProc, h6, ClientMessage, DestroyNotify, ConfigureNotify, FocusIn, FocusOut,
      MapNotify, Exec.start, Exec.setActive, RenderWindow.setActive]
  by_cases h7 : event.type = UnmapNotify
  · simp [GLXProc, h7, ClientMessage, DestroyNotify, ConfigureNotify, FocusIn, FocusOut,
      MapNotify, UnmapNotify, Exec.start, Exec.setActive, Exec.setVisible,
      RenderWindow.setActive, RenderWindow.setVisible]
  by_cases h8 : event.type = VisibilityNotify
  · by_cases v1 : event.xvisibility_state = VisibilityUnobscured
    · simp [GLXProc, h8, v1, ClientMessage, DestroyNotify, ConfigureNotify, FocusIn, FocusOut,
        MapNotify, UnmapNotify, VisibilityNotify, Exec.start, Exec.setActive,
        Exec.setVisible, RenderWindow.setActive, RenderWindow.setVisible]
    by_cases v2 : event.xvisibility_state = VisibilityPartiallyObscured
    · simp [GLXProc, h8, v2, ClientMessage, DestroyNotify, ConfigureNotify, FocusIn, FocusOut,
        MapNotify, UnmapNotify, VisibilityNotify, VisibilityUnobscured,
        VisibilityPartiallyObscured, Exec.start, Exec.setActive,
        Exec.setVisible, RenderWindow.setActive, RenderWindow.setVisible]
    by_cases v3 : event.xvisibility_state = VisibilityFullyObscured
    · simp [GLXProc, h8, v3, ClientMessage, DestroyNotify, ConfigureNotify, FocusIn, FocusOut,
        MapNotify, UnmapNotify, VisibilityNotify, VisibilityUnobscured,
        VisibilityPartiallyObscured, VisibilityFullyObscured, Exec.start, Exec.setActive,
        Exec.setVisible, RenderWindow.setActive, RenderWindow.setVisible]
    simp only [VisibilityUnobscured, VisibilityPartiallyObscured,
      VisibilityFullyObscured] at v1 v2 v3
    simp [GLXProc, h8, v1, v2, v3, ClientMessage, DestroyNotify, ConfigureNotify, FocusIn,
      FocusOut, MapNotify, UnmapNotify, VisibilityNotify, VisibilityUnobscured,
      VisibilityPartiallyObscured, VisibilityFullyObscured, Exec.start]
  simp [GLXProc, h1, h2, h3, h4, h5, h6, h7, h8, Exec.start]

/-- C11: for every window state and every X event whose type is `ClientMessage` (the
window-manager close atom included), `DestroyNotify`, `FocusIn`, `FocusOut`, or a type the
switch of `GLXProc` does not list, `GLXProc` calls none of `setActive`, `setVisible`,
`_setHasFocus`, `windowMovedOrResized` and does not ask the application to stop, and the window
object (`active`, `visible`, `hasFocus`, `bounds`) is left as it was; and whatever the event,
`hasFocus` is unchanged. -/
theorem glx_ignored_events (native : Metrics) (atom : Int) (w : RenderWindow) (event : XEvent)
    (ht : event.type = ClientMessage ∨ event.type = DestroyNotify ∨ event.type = FocusIn ∨
      event.type = FocusOut ∨
      (event.type ≠ ClientMessage ∧ event.type ≠ DestroyNotify ∧
        event.type ≠ ConfigureNotify ∧ event.type ≠ FocusIn ∧ event.type ≠ FocusOut ∧
        event.type ≠ MapNotify ∧ event.type ≠ UnmapNotify ∧
        event.type ≠ VisibilityNotify)) :
    countCalls Call.isMutator (GLXProc native atom w event).log = 0 ∧
      countCalls Call.isStopMainLoop (GLXProc native atom w event).log = 0 ∧
      (GLXProc native atom w event).win = w ∧
      ∀ event' : XEvent, (GLXProc native atom w event').win.hasFocus = w.hasFocus := by
  refine ⟨?_, ?_, ?_, fun event' => glx_keeps_hasFocus native atom w event'⟩
  all_goals
    rcases ht with h | h | h | h | ⟨h1, h2, h3, h4, h5, h6, h7, h8⟩
    · simp [GLXProc, h, Exec.start, Exec.call, countCalls, Call.isMutator, Call.isStopMainLoop]
    · simp [GLXProc, h, ClientMessage, DestroyNotify, Exec.start, Exec.call, countCalls,
        Call.isMutator, Call.isStopMainLoop]
    · simp [GLXProc, h, ClientMessage, DestroyNotify, ConfigureNotify, FocusIn, Exec.start,
        countCalls]
    · simp [GLXProc, h, ClientMessage, DestroyNotify, ConfigureNotify, FocusOut, Exec.start,
        countCalls]
    · simp [GLXProc, h1, h2, h3, h4, h5, h6, h7, h8, Exec.start, countCalls]

/-- C11 witness: a `ClientMessage` carrying the window-manager close atom 5 in 32-bit format
reaches the focused sample window, which stays as it was. -/
theorem glx_ignored_events_witness :
    (GLXProc sampleWindow.bounds 5 focusedWindow
        { type := ClientMessage, xclient_format := 32, xclient_data_l0 := 5,
          xvisibility_state := 0 }).win = focusedWindow ∧
      countCalls Call.isMutator (GLXProc sampleWindow.bounds 5 focusedWindow
        { type := ClientMessage, xclient_format := 32, xclient_data_l0 := 5,
          xvisibility_state := 0 }).log = 0 :=
  ⟨(glx_ignored_events sampleWindow.bounds 5 focusedWindow
      { type := ClientMessage, xclient_format := 32, xclient_data_l0 := 5,
        xvisibility_state := 0 } (Or.inl rfl)).2.2.1,
    (glx_ignored_events sampleWindow.bounds 5 focusedWindow
      { type := ClientMessage, xclient_format := 32, xclient_data_l0 := 5,
        xvisibility_state := 0 } (Or.inl rfl)).1⟩

end X11

end CamelotFramework
